import Mathlib

/-!
Verification development for the tbot session/channel layer
(`tbot/machine/linux/util.py`, `tbot/machine/linux/build.py`).

Python exceptions are modelled as an explicit error type, Python's mutable
proxy object as an explicit state record, and the `cmd_context` generator as
the list of results its successive `next()` calls produce.  Errors escaping a
method carry the state the object is left in, mirroring the fact that the
mutations executed before the raise point persist in Python.
-/

namespace Tbot

/-- Python exception classes appearing in the modelled code.
`protocolViolation` is Python's `RuntimeError`, `commandFailed` the plain
`Exception` raised by `terminate0`, `indexError` the `IndexError` raised by
an out-of-range `args[0]` lookup, `keyError` a failed dict lookup. -/
inductive Err
  | timeoutErr
  | channelClosed
  | deathString
  | commandFailed (cmd : String)
  | protocolViolation (msg : String)
  | assertionError (msg : String)
  | indexError
  | keyError (k : String)
  | user (n : Nat)
  deriving DecidableEq, Repr

/-- The value a Python generator returns (payload of its final
`StopIteration`): either the contracted `(retcode, output)` tuple or some
other, non-tuple value. -/
inductive PyVal
  | tuple (rc : Int) (out : String)
  | nonTuple
  deriving DecidableEq, Repr

/-- Result of one `next()` call on the `cmd_context` generator: it either
yields again, stops (raises `StopIteration`; `ret = none` models an empty
`args` payload, as produced by an already-exhausted generator or a bare
`return`), or raises an exception. -/
inductive NextResult
  | yielded
  | stopped (ret : Option PyVal)
  | raised (e : Err)
  deriving DecidableEq, Repr

/-- State of the channel wrapped by the proxy: still the borrowed channel, or
replaced by a `ChannelTaken()` placeholder (done by a successful
`terminate`). -/
inductive ChanState
  | borrowed
  | taken
  deriving DecidableEq, Repr

/-- The mutable state of a `RunCommandProxy`: the command string captured at
spawn time (`_cmd`), the `_proxy_alive` flag, the wrapped channel state
(`_c`), and the remaining behaviour of the `_cmd_context` generator.  An
empty `gen` list is an exhausted generator: a further `next()` raises a bare
`StopIteration` (empty `args`). -/
structure RunCommandProxy where
  cmd : String
  proxy_alive : Bool
  chan : ChanState
  gen : List NextResult
  deriving DecidableEq, Repr

/-- Message of the `RuntimeError` raised by `terminate` when the generator
yields again instead of stopping. -/
def didntStopMsg : String := "runctx generator didn\x27t stop"

/-- Message of the failed `assert isinstance(retval, tuple)`. -/
def wrongTypeMsg : String := "generator returned wrong type"

/-- `RunCommandProxy.terminate`: drives the completion phase with one
`next(self._cmd_context)`.
On `StopIteration` it reads `s.args[0]` (raising `IndexError` when the
payload is empty), asserts the payload is a tuple, and only then clears
`_proxy_alive`, replaces `_c` with `ChannelTaken()` and returns the pair.
When the generator yields again it raises
`RuntimeError("runctx generator didn\x27t stop")`; when the generator raises,
that exception propagates.  On every error path the proxy flags are left
untouched (the mutations sit after the `try` block in the source).  After a
`stopped` or `raised` result the generator is exhausted (`gen := []`); after
a `yielded` result it is suspended on its remaining behaviour. -/
def RunCommandProxy.terminate (p : RunCommandProxy) :
    Except (Err × RunCommandProxy) ((Int × String) × RunCommandProxy) :=
  match p.gen with
  | [] => Except.error (Err.indexError, p)
  | NextResult.yielded :: rest =>
      Except.error (Err.protocolViolation didntStopMsg, { p with gen := rest })
  | NextResult.raised e :: _ => Except.error (e, { p with gen := [] })
  | NextResult.stopped none :: _ => Except.error (Err.indexError, { p with gen := [] })
  | NextResult.stopped (some PyVal.nonTuple) :: _ =>
      Except.error (Err.assertionError wrongTypeMsg, { p with gen := [] })
  | NextResult.stopped (some (PyVal.tuple rc out)) :: _ =>
      Except.ok ((rc, out),
        { p with gen := [], proxy_alive := false, chan := ChanState.taken })

/-- `RunCommandProxy.terminate0`: calls `terminate`; raises
`Exception(f"command {self._cmd!r} failed!")` unless the return code is 0. -/
def RunCommandProxy.terminate0 (p : RunCommandProxy) :
    Except (Err × RunCommandProxy) (String × RunCommandProxy) :=
  match p.terminate with
  | Except.error ep => Except.error ep
  | Except.ok ((rc, out), p2) =>
      if rc ≠ 0 then Except.error (Err.commandFailed p.cmd, p2)
      else Except.ok (out, p2)

/-- Message of the `RuntimeError` raised by `_assert_end`. -/
def assertEndMsg : String :=
  "A run-command proxy needs to be terminated before leaving its context!"

/-- What the caller's `with ... as proxy:` block does: it either completes
normally or raises an error, leaving the proxy in some state. -/
inductive BodyOutcome
  | completes (p : RunCommandProxy)
  | raises (e : Err) (p : RunCommandProxy)

/-- How the `cmd_context` generator reacts when an exception is thrown into
it with `gen.throw(e.__class__, e)`: it can let the exception escape
unchanged, raise a different exception, catch it and yield again (so
`throw` returns a value), or catch it and return (so `throw` raises
`StopIteration`, which PEP 479 turns into a `RuntimeError` inside the
`_ctx` generator). -/
inductive ThrowResult
  | propagates
  | raisesOther (e : Err)
  | yieldsValue
  | returnsValue (v : Option PyVal)

/-- One instantiation of the `RunCommandProxy._ctx` scope: the caller body's
outcome together with the generator's reaction to thrown exceptions. -/
structure CtxRun where
  body : BodyOutcome
  onThrow : Err → ThrowResult

/-- Outcome of the whole `_ctx` scope as seen by the caller of `run()`. -/
inductive CtxOutcome
  | ok
  | error (e : Err)
  deriving DecidableEq, Repr

/-- Observable result of running a `_ctx` scope: its outcome, the list of
errors that were thrown into the `cmd_context` generator (in order), and
whether the channel borrow taken by `with orig_chan.borrow()` was released
again. -/
structure CtxResult where
  outcome : CtxOutcome
  forwarded : List Err
  borrowReleased : Bool
  deriving DecidableEq, Repr

/-- `RunCommandProxy._ctx`: runs the caller body inside
`with orig_chan.borrow()`.  If the body raises, the exception is first
thrown into the `cmd_context` generator; only when the generator lets it
escape (or raises something else) does an error reach the caller, otherwise
control falls through to `proxy._assert_end()`, which raises a
`RuntimeError` whenever the proxy is still alive.  A generator that reacts
to the throw by returning makes `throw` raise `StopIteration`, which PEP 479
converts into `RuntimeError("generator raised StopIteration")`.  Modelled
from the spec: the borrow context manager releases the grant on every exit
path (the channel module is outside the excerpt), recorded in
`borrowReleased`. -/
def ctx (r : CtxRun) : CtxResult :=
  match r.body with
  | BodyOutcome.completes p =>
      if p.proxy_alive then
        ⟨CtxOutcome.error (Err.protocolViolation assertEndMsg), [], true⟩
      else ⟨CtxOutcome.ok, [], true⟩
  | BodyOutcome.raises e p =>
      match r.onThrow e with
      | ThrowResult.propagates => ⟨CtxOutcome.error e, [e], true⟩
      | ThrowResult.raisesOther e2 => ⟨CtxOutcome.error e2, [e], true⟩
      | ThrowResult.yieldsValue =>
          if p.proxy_alive then
            ⟨CtxOutcome.error (Err.protocolViolation assertEndMsg), [e], true⟩
          else ⟨CtxOutcome.ok, [e], true⟩
      | ThrowResult.returnsValue _ =>
          ⟨CtxOutcome.error
            (Err.protocolViolation "generator raised StopIteration"), [e], true⟩

/-- The probe line sent by `wait_for_shell`: `echo TBOT''LOGIN` (the two
apostrophes are part of the literal text). -/
def probeLine : String := "echo TBOT\x27\x27LOGIN"

/-- The marker the prompt pattern `TBOTLOGIN.\x7b0,80\x7d` begins with. -/
def loginMarker : List Char := "TBOTLOGIN".toList

/-- Whether `m` is a prefix of `s` (character-by-character). -/
def listStartsWith : List Char → List Char → Bool
  | [], _ => true
  | _ :: _, [] => false
  | a :: ms, b :: ss => a == b && listStartsWith ms ss

/-- Whether `m` occurs in `s` starting at some position. -/
def markerFound (m : List Char) : List Char → Bool
  | [] => listStartsWith m []
  | b :: ss => listStartsWith m (b :: ss) || markerFound m ss

/-- Whether a search for the installed prompt pattern
`re.compile(b"TBOTLOGIN.\x7b0,80\x7d", re.DOTALL)` succeeds somewhere in the
buffer `s`.  The trailing `.\x7b0,80\x7d` (with DOTALL) matches zero or more
arbitrary bytes, so a search hit exists exactly where the `TBOTLOGIN` marker
itself occurs. -/
def promptPatternHits (s : List Char) : Bool := markerFound loginMarker s

/-- Result of one `read_until_prompt(timeout=0.2)` attempt inside
`wait_for_shell`: the prompt pattern matched (with the accumulated output),
the 0.2 s deadline elapsed (`TimeoutError`), or some other error was
raised. -/
inductive ReadOutcome
  | timeout
  | success (out : String)
  | fail (e : Err)
  deriving DecidableEq, Repr

/-- The read timeout used by each `wait_for_shell` iteration, in seconds. -/
def waitForShellTimeout : ℚ := 2 / 10

/-- `wait_for_shell`: with the prompt pattern installed, loop: send the probe
line, then `read_until_prompt(timeout=0.2)`; on `TimeoutError` retry, on a
prompt match stop, on any other error propagate it.  The argument lists the
successive read outcomes; the result is `none` while the loop is still
running (the loop itself has no retry limit), otherwise the error or the
list of probe lines sent. -/
def wait_for_shell : List ReadOutcome → Option (Except Err (List String))
  | [] => none
  | ReadOutcome.timeout :: rest =>
      match wait_for_shell rest with
      | none => none
      | some (Except.ok ps) => some (Except.ok (probeLine :: ps))
      | some (Except.error e) => some (Except.error e)
  | ReadOutcome.success _ :: _ => some (Except.ok [probeLine])
  | ReadOutcome.fail e :: _ => some (Except.error e)

/-- A shell environment: variable bindings, most recent first. -/
abbrev Env := List (String × String)

/-- Modelled from the spec: reading an environment variable with
`m.env(VAR)` returns its value, or the empty string when unset (the
`LinuxShell.env` implementation is outside the excerpt; the selftest
observes `""` for an unset variable). -/
def envGet (e : Env) (k : String) : String := (List.lookup k e).getD ""

/-- Shell-level commands relevant to environment scoping: set a variable,
observe a variable (`m.env(VAR)`), or run a body inside `subshell()`. -/
inductive ShCmd
  | setVar (k v : String)
  | getVar (k : String)
  | sub (body : List ShCmd)

/-- Modelled from the spec: `subshell()` nests a fresh shell-level scope so
that environment mutations performed inside are invisible once the scope
exits (the `LinuxShell.subshell` implementation is outside the excerpt).
`runCmds` returns the final environment together with the values observed
by the `getVar` commands, in order; a `sub` block runs its body on the
current environment but the environment after the block is the one from
before it. -/
def runCmds : List ShCmd → Env → Env × List String
  | [], e => (e, [])
  | ShCmd.setVar k v :: cs, e => runCmds cs ((k, v) :: e)
  | ShCmd.getVar k :: cs, e =>
      let r := runCmds cs e
      (r.1, envGet e k :: r.2)
  | ShCmd.sub body :: cs, e =>
      let inner := runCmds body e
      let r := runCmds cs e
      (r.1, inner.2 ++ r.2)

/-- A toolchain as seen by `Builder.enable`: the shell commands its
`enable()` method runs inside the subshell (e.g. `unset LD_LIBRARY_PATH`;
`source <env-script>` for `EnvScriptToolchain`). -/
structure Toolchain where
  enableCmds : List (List String)
  deriving DecidableEq, Repr

/-- Observable actions performed by `Builder.enable`, in order. -/
inductive BuildAction
  | lookupToolchain (arch : String)
  | subshellEnter
  | shellCmd (c : List String)
  deriving DecidableEq, Repr

/-- `Builder.enable(arch)` up to its `yield`: first the dict lookup
`tc = self.toolchains[arch]` (raising `KeyError` when `arch` is missing,
before anything is sent to the shell), then `with self.subshell():` and
`tc.enable(self)`.  Returns the action trace and the error, if any. -/
def Builder.enable (toolchains : List (String × Toolchain)) (arch : String) :
    List BuildAction × Option Err :=
  match List.lookup arch toolchains with
  | none => ([BuildAction.lookupToolchain arch], some (Err.keyError arch))
  | some tc =>
      (BuildAction.lookupToolchain arch :: BuildAction.subshellEnter ::
        tc.enableCmds.map BuildAction.shellCmd, none)

/-- Whether a build action is a toolchain lookup. -/
def isLookup : BuildAction → Bool
  | BuildAction.lookupToolchain _ => true
  | _ => false

/-- Whether a build action sends a command to the shell. -/
def isShellCmd : BuildAction → Bool
  | BuildAction.shellCmd _ => true
  | _ => false

/-- Whether an error is the spec's `ProtocolViolation` (a Python
`RuntimeError`). -/
def isProtocolViolation : Err → Bool
  | Err.protocolViolation _ => true
  | _ => false

/-- Modelled from the spec: a freshly spawned session for the command
`false` (the per-shell `run()` implementation is outside the excerpt).  Its
completion phase reads the remaining output (empty) and the exit code (1)
and stops with the tuple `(1, "")`. -/
def falseSession : RunCommandProxy :=
  ⟨"false", true, ChanState.borrowed, [NextResult.stopped (some (PyVal.tuple 1 ""))]⟩

/-- Modelled from the spec: a freshly spawned session for the command
`true`, whose completion phase stops with `(0, "")`. -/
def trueSession : RunCommandProxy :=
  ⟨"true", true, ChanState.borrowed, [NextResult.stopped (some (PyVal.tuple 0 ""))]⟩

/-- A session whose completion routine violates its contract by yielding a
second time instead of returning. -/
def yieldingSession : RunCommandProxy :=
  ⟨"cat", true, ChanState.borrowed, [NextResult.yielded]⟩

end Tbot

namespace Tbot

theorem countP_isLookup_map_shellCmd (l : List (List String)) :
    (l.map BuildAction.shellCmd).countP isLookup = 0 := by
  induction l with
  | nil => rfl
  | cons c cs ih => simp [List.countP_cons, isLookup, ih]

/-- C1 counterexample: for the session whose completion routine yields again
(violating its contract), `terminate()` raises the defect `RuntimeError` but
leaves the proxy-alive flag set and the wrapped channel state unchanged —
the session does not reach TERMINATED. -/
theorem terminate_contract_violation_leaves_alive_cex :
    RunCommandProxy.terminate yieldingSession =
      Except.error (Err.protocolViolation didntStopMsg,
        ⟨"cat", true, ChanState.borrowed, []⟩) ∧
    (⟨"cat", true, ChanState.borrowed, ([] : List NextResult)⟩ :
      RunCommandProxy).proxy_alive = true := by
  exact ⟨rfl, rfl⟩

/-- C1 (amended): `terminate()` transitions the session to TERMINATED (the
proxy-alive flag cleared, the wrapped channel state replaced by
`ChannelTaken`) exactly when the completion routine stops with an
`(exitCode, output)` tuple; on every error path — the routine raises,
yields again, or stops with a wrong-typed value — the error propagates and
the alive flag and channel state are left exactly as they were. -/
theorem terminate_terminated_exactly_on_success (p : RunCommandProxy) :
    (∀ v p2, p.terminate = Except.ok (v, p2) →
        p2.proxy_alive = false ∧ p2.chan = ChanState.taken) ∧
    (∀ e p2, p.terminate = Except.error (e, p2) →
        p2.proxy_alive = p.proxy_alive ∧ p2.chan = p.chan) := by
  obtain ⟨c, a, ch, g⟩ := p
  constructor <;> intro x p2 h
  · match g with
    | [] => simp [RunCommandProxy.terminate] at h
    | NextResult.yielded :: rest => simp [RunCommandProxy.terminate] at h
    | NextResult.raised e :: rest => simp [RunCommandProxy.terminate] at h
    | NextResult.stopped none :: rest => simp [RunCommandProxy.terminate] at h
    | NextResult.stopped (some PyVal.nonTuple) :: rest =>
        simp [RunCommandProxy.terminate] at h
    | NextResult.stopped (some (PyVal.tuple rc out)) :: rest =>
        simp [RunCommandProxy.terminate] at h
        obtain ⟨-, h2⟩ := h
        subst h2
        exact ⟨rfl, rfl⟩
  · match g with
    | [] =>
        simp [RunCommandProxy.terminate] at h
        obtain ⟨-, h2⟩ := h
        subst h2
        exact ⟨rfl, rfl⟩
    | NextResult.yielded :: rest =>
        simp [RunCommandProxy.terminate] at h
        obtain ⟨-, h2⟩ := h
        subst h2
        exact ⟨rfl, rfl⟩
    | NextResult.raised e :: rest =>
        simp [RunCommandProxy.terminate] at h
        obtain ⟨-, h2⟩ := h
        subst h2
        exact ⟨rfl, rfl⟩
    | NextResult.stopped none :: rest =>
        simp [RunCommandProxy.terminate] at h
        obtain ⟨-, h2⟩ := h
        subst h2
        exact ⟨rfl, rfl⟩
    | NextResult.stopped (some PyVal.nonTuple) :: rest =>
        simp [RunCommandProxy.terminate] at h
        obtain ⟨-, h2⟩ := h
        subst h2
        exact ⟨rfl, rfl⟩
    | NextResult.stopped (some (PyVal.tuple rc out)) :: rest =>
        simp [RunCommandProxy.terminate] at h

/-- C1 witness: the amended statement applied to the session for `true`,
whose completion routine succeeds with `(0, "")`. -/
theorem terminate_terminated_exactly_on_success_witness :
    RunCommandProxy.proxy_alive ⟨"true", false, ChanState.taken, []⟩ = false ∧
    RunCommandProxy.chan ⟨"true", false, ChanState.taken, []⟩ = ChanState.taken :=
  (terminate_terminated_exactly_on_success trueSession).1 ((0, ""))
    ⟨"true", false, ChanState.taken, []⟩ rfl

/-- C2: `terminate0()` returns the remaining output exactly when `terminate`
reports exit code 0, and fails with `CommandFailed` whenever `terminate`
reports a nonzero exit code; a session spawned for `false` has `terminate0()`
raise `CommandFailed` and a fresh session for the same command has
`terminate()` return `(1, "")`. -/
theorem terminate0_success_iff_exit_zero :
    (∀ (p p2 : RunCommandProxy) (out : String),
        p.terminate0 = Except.ok (out, p2) ↔ p.terminate = Except.ok ((0, out), p2)) ∧
    (∀ (p p2 : RunCommandProxy) (rc : Int) (out : String),
        p.terminate = Except.ok ((rc, out), p2) → rc ≠ 0 →
          p.terminate0 = Except.error (Err.commandFailed p.cmd, p2)) ∧
    falseSession.terminate0 =
      Except.error (Err.commandFailed "false", ⟨"false", false, ChanState.taken, []⟩) ∧
    falseSession.terminate =
      Except.ok ((1, ""), ⟨"false", false, ChanState.taken, []⟩) := by
  refine ⟨?_, ?_, rfl, rfl⟩
  · intro p p2 out
    cases h : p.terminate with
    | error ep => simp [RunCommandProxy.terminate0, h]
    | ok vp =>
        obtain ⟨⟨rc, o⟩, p3⟩ := vp
        by_cases hrc : rc = 0
        · subst hrc
          simp [RunCommandProxy.terminate0, h]
        · simp [RunCommandProxy.terminate0, h, hrc]
  · intro p p2 rc out h hrc
    simp [RunCommandProxy.terminate0, h, hrc]

/-- C2 witness: the statement applied to the session for `false`, whose
exit code 1 makes `terminate0` fail with `CommandFailed`. -/
theorem terminate0_success_iff_exit_zero_witness :
    falseSession.terminate0 =
      Except.error (Err.commandFailed falseSession.cmd,
        ⟨"false", false, ChanState.taken, []⟩) :=
  terminate0_success_iff_exit_zero.2.1 falseSession
    ⟨"false", false, ChanState.taken, []⟩ 1 "" rfl (by decide)

/-- C5 counterexample: the session for `true` terminates successfully; a
second `terminate()` on the TERMINATED session fails with `IndexError`
(`s.args[0]` on the bare `StopIteration` of the exhausted generator), which
is not the `RuntimeError` the spec calls `ProtocolViolation`. -/
theorem terminate_after_terminated_index_error_cex :
    trueSession.terminate =
      Except.ok ((0, ""), ⟨"true", false, ChanState.taken, []⟩) ∧
    RunCommandProxy.terminate ⟨"true", false, ChanState.taken, []⟩ =
      Except.error (Err.indexError, ⟨"true", false, ChanState.taken, []⟩) ∧
    isProtocolViolation Err.indexError = false := ⟨rfl, rfl, rfl⟩

/-- C5 (amended): once a session reaches TERMINATED (a successful
`terminate`), any further `terminate()` or `terminate0()` call fails — it
never silently succeeds — but the error is an `IndexError` from reading the
empty payload of the exhausted generator's `StopIteration`, not a
`ProtocolViolation`. -/
theorem terminate_after_terminated_fails (p p2 : RunCommandProxy)
    (v : Int × String) (h : p.terminate = Except.ok (v, p2)) :
    p2.terminate = Except.error (Err.indexError, p2) ∧
    p2.terminate0 = Except.error (Err.indexError, p2) ∧
    isProtocolViolation Err.indexError = false := by
  obtain ⟨c, a, ch, g⟩ := p
  have hg : p2.gen = [] := by
    match g with
    | [] => simp [RunCommandProxy.terminate] at h
    | NextResult.yielded :: rest => simp [RunCommandProxy.terminate] at h
    | NextResult.raised e :: rest => simp [RunCommandProxy.terminate] at h
    | NextResult.stopped none :: rest => simp [RunCommandProxy.terminate] at h
    | NextResult.stopped (some PyVal.nonTuple) :: rest =>
        simp [RunCommandProxy.terminate] at h
    | NextResult.stopped (some (PyVal.tuple rc out)) :: rest =>
        simp [RunCommandProxy.terminate] at h
        obtain ⟨-, h2⟩ := h
        subst h2
        rfl
  have ht : p2.terminate = Except.error (Err.indexError, p2) := by
    obtain ⟨c2, a2, ch2, g2⟩ := p2
    simp only at hg
    subst hg
    rfl
  refine ⟨ht, ?_, rfl⟩
  simp [RunCommandProxy.terminate0, ht]

/-- C5 witness: the amended statement applied to the session for `true`. -/
theorem terminate_after_terminated_fails_witness :
    RunCommandProxy.terminate ⟨"true", false, ChanState.taken, []⟩ =
      Except.error (Err.indexError, ⟨"true", false, ChanState.taken, []⟩) ∧
    RunCommandProxy.terminate0 ⟨"true", false, ChanState.taken, []⟩ =
      Except.error (Err.indexError, ⟨"true", false, ChanState.taken, []⟩) ∧
    isProtocolViolation Err.indexError = false :=
  terminate_after_terminated_fails trueSession
    ⟨"true", false, ChanState.taken, []⟩ (0, "") rfl

/-- C6: provided the completion routine does not itself raise a
`RuntimeError`, `terminate()` fails with the defect
`RuntimeError("runctx generator didn\x27t stop")` (the spec's
`ProtocolViolation`) exactly when driving the command-context generator does
not make it stop: it yields again instead of returning. -/
theorem terminate_protocol_violation_iff_yields_again (p : RunCommandProxy)
    (h : ∀ (m : String) (rest : List NextResult),
        p.gen ≠ NextResult.raised (Err.protocolViolation m) :: rest) :
    (∃ q, p.terminate = Except.error (Err.protocolViolation didntStopMsg, q)) ↔
    (∃ rest, p.gen = NextResult.yielded :: rest) := by
  obtain ⟨c, a, ch, g⟩ := p
  match g with
  | [] => simp [RunCommandProxy.terminate]
  | NextResult.yielded :: rest =>
      simp [RunCommandProxy.terminate]
  | NextResult.raised e :: rest =>
      simp only [RunCommandProxy.terminate]
      constructor
      · rintro ⟨q, hq⟩
        injection hq with hpair
        injection hpair with h1 h2
        exact absurd (show NextResult.raised e :: rest =
            NextResult.raised (Err.protocolViolation didntStopMsg) :: rest by
          rw [h1]) (h didntStopMsg rest)
      · rintro ⟨rest2, hrest⟩
        simp at hrest
  | NextResult.stopped none :: rest => simp [RunCommandProxy.terminate]
  | NextResult.stopped (some PyVal.nonTuple) :: rest =>
      simp [RunCommandProxy.terminate]
  | NextResult.stopped (some (PyVal.tuple rc out)) :: rest =>
      simp [RunCommandProxy.terminate]

/-- C6 witness: the statement applied to a session whose routine yields a
second time: `terminate` raises the defect `RuntimeError`. -/
theorem terminate_protocol_violation_iff_yields_again_witness :
    ∃ q, RunCommandProxy.terminate yieldingSession =
      Except.error (Err.protocolViolation didntStopMsg, q) :=
  (terminate_protocol_violation_iff_yields_again yieldingSession
    (by intro m rest hh; simp [yieldingSession] at hh)).mpr ⟨[], rfl⟩

/-- C3: when the caller's `run` scope completes with the session still
RUNNING (neither `terminate` nor `terminate0` was called), the scope raises
exactly one error — the `RuntimeError` from `_assert_end` (the spec's
`ProtocolViolation`) — nothing is thrown into the completion routine, and
the channel borrow is released so the channel is recoverable for a fresh
session. -/
theorem ctx_running_scope_exit_protocol_violation (p : RunCommandProxy)
    (onThrow : Err → ThrowResult) (h : p.proxy_alive = true) :
    ctx ⟨BodyOutcome.completes p, onThrow⟩ =
      ⟨CtxOutcome.error (Err.protocolViolation assertEndMsg), [], true⟩ := by
  simp [ctx, h]

/-- C3 witness: the statement applied to the still-running yielding
session. -/
theorem ctx_running_scope_exit_protocol_violation_witness :
    ctx ⟨BodyOutcome.completes yieldingSession, fun _ => ThrowResult.propagates⟩ =
      ⟨CtxOutcome.error (Err.protocolViolation assertEndMsg), [], true⟩ :=
  ctx_running_scope_exit_protocol_violation yieldingSession
    (fun _ => ThrowResult.propagates) rfl

/-- C4 counterexample: a caller-raised `TimeoutError` inside a `run` scope
with the session RUNNING is forwarded into the completion routine, but when
the routine catches it and yields again the scope raises the `_assert_end`
`RuntimeError` instead of re-raising the `TimeoutError` — the error is not
re-raised unchanged. -/
theorem ctx_forwarded_error_not_reraised_cex :
    (ctx ⟨BodyOutcome.raises Err.timeoutErr yieldingSession,
        fun _ => ThrowResult.yieldsValue⟩).forwarded = [Err.timeoutErr] ∧
    (ctx ⟨BodyOutcome.raises Err.timeoutErr yieldingSession,
        fun _ => ThrowResult.yieldsValue⟩).outcome =
      CtxOutcome.error (Err.protocolViolation assertEndMsg) ∧
    CtxOutcome.error (Err.protocolViolation assertEndMsg) ≠
      CtxOutcome.error Err.timeoutErr := by
  refine ⟨rfl, rfl, by decide⟩

/-- C4 (amended): an error raised by the caller while the session is RUNNING
is always forwarded into the completion routine first (thrown into the
command-context generator); when the routine lets it escape — the contracted
behaviour — it is then re-raised unchanged to the caller of the scope.  (A
routine that swallows the error instead leads to the `_assert_end`
`ProtocolViolation`.) -/
theorem ctx_forwards_then_reraises_when_propagated (e : Err)
    (p : RunCommandProxy) (onThrow : Err → ThrowResult)
    (h : p.proxy_alive = true) :
    (ctx ⟨BodyOutcome.raises e p, onThrow⟩).forwarded = [e] ∧
    (onThrow e = ThrowResult.propagates →
      ctx ⟨BodyOutcome.raises e p, onThrow⟩ = ⟨CtxOutcome.error e, [e], true⟩) := by
  cases ht : onThrow e <;> simp [ctx, ht, h]

/-- C4 witness: the amended statement applied to a `TimeoutError` raised
over a routine that lets it propagate. -/
theorem ctx_forwards_then_reraises_when_propagated_witness :
    (ctx ⟨BodyOutcome.raises Err.timeoutErr yieldingSession,
        fun _ => ThrowResult.propagates⟩).forwarded = [Err.timeoutErr] ∧
    ctx ⟨BodyOutcome.raises Err.timeoutErr yieldingSession,
        fun _ => ThrowResult.propagates⟩ =
      ⟨CtxOutcome.error Err.timeoutErr, [Err.timeoutErr], true⟩ := by
  have h := ctx_forwards_then_reraises_when_propagated Err.timeoutErr
    yieldingSession (fun _ => ThrowResult.propagates) rfl
  exact ⟨h.1, h.2 rfl⟩

/-- C7: each `wait_for_shell` iteration sends the probe line and attempts a
prompt-bounded read with a 0.2-second timeout; after `k` `TimeoutError`
outcomes followed by a prompt match it returns having sent exactly `k + 1`
probe lines; any error other than `TimeoutError` propagates out of the loop;
on timeouts alone the loop never gives up (no fixed retry limit). -/
theorem wait_for_shell_loop_behavior :
    (∀ (k : Nat) (rest : List ReadOutcome) (out : String),
        wait_for_shell
            (List.replicate k ReadOutcome.timeout ++ ReadOutcome.success out :: rest) =
          some (Except.ok (List.replicate (k + 1) probeLine))) ∧
    (∀ (k : Nat) (rest : List ReadOutcome) (e : Err),
        wait_for_shell
            (List.replicate k ReadOutcome.timeout ++ ReadOutcome.fail e :: rest) =
          some (Except.error e)) ∧
    (∀ k : Nat, wait_for_shell (List.replicate k ReadOutcome.timeout) = none) ∧
    waitForShellTimeout = 1 / 5 := by
  refine ⟨?_, ?_, ?_, by norm_num [waitForShellTimeout]⟩
  · intro k rest out
    induction k with
    | zero => simp [wait_for_shell, List.replicate]
    | succ n ih => simp [wait_for_shell, List.replicate, ih]
  · intro k rest e
    induction k with
    | zero => simp [wait_for_shell, List.replicate]
    | succ n ih => simp [wait_for_shell, List.replicate, ih]
  · intro k
    induction k with
    | zero => simp [wait_for_shell, List.replicate]
    | succ n ih => simp [wait_for_shell, List.replicate, ih]

/-- C8: the literal probe text sent by `wait_for_shell` — `echo
TBOT''LOGIN`, with the quotes not removed, with or without a trailing line
ending — contains no substring matching the installed prompt pattern,
whereas output in which quote removal has taken place (`TBOTLOGIN`, possibly
followed by trailing noise) does match. -/
theorem probe_never_matches_prompt_pattern :
    promptPatternHits probeLine.toList = false ∧
    promptPatternHits (probeLine ++ "\r\n").toList = false ∧
    promptPatternHits "TBOTLOGIN".toList = true ∧
    promptPatternHits "TBOTLOGIN\r\nsh-5.1$ ".toList = true := by
  refine ⟨by decide, by decide, by decide, by decide⟩

/-- C9: an environment variable set inside a `subshell()` scope is visible
for the rest of the scope, and immediately after the scope exits it reverts
to its prior value; environment mutations made inside any subshell body
(including the commands a toolchain's `enable` runs) are invisible outside
the scope.  The last conjunct is the selftest scenario with
`SUBSHELL_TEST_VAR`. -/
theorem subshell_env_scoping :
    (∀ (e : Env) (k v : String),
        runCmds [ShCmd.sub [ShCmd.setVar k v, ShCmd.getVar k], ShCmd.getVar k] e =
          (e, [v, envGet e k])) ∧
    (∀ (body cs : List ShCmd) (e : Env),
        (runCmds (ShCmd.sub body :: cs) e).1 = (runCmds cs e).1) ∧
    runCmds [ShCmd.getVar "SUBSHELL_TEST_VAR",
        ShCmd.sub [ShCmd.setVar "SUBSHELL_TEST_VAR" "123",
          ShCmd.getVar "SUBSHELL_TEST_VAR"],
        ShCmd.getVar "SUBSHELL_TEST_VAR"] [] = ([], ["", "123", ""]) := by
  refine ⟨?_, ?_, by simp [runCmds, envGet, List.lookup]⟩
  · intro e k v
    simp [runCmds, envGet]
  · intro body cs e
    simp [runCmds]

/-- C10: `Builder.enable(arch)` performs the toolchain dictionary lookup
first: for an `arch` not in the toolchains dictionary it fails with
`KeyError` before entering the subshell, sending no command to the shell;
for an `arch` that is present, the lookup happens exactly once and precedes
the subshell entry. -/
theorem builder_enable_lookup_before_subshell
    (tcs : List (String × Toolchain)) (arch : String) :
    (List.lookup arch tcs = none →
        Builder.enable tcs arch =
          ([BuildAction.lookupToolchain arch], some (Err.keyError arch)) ∧
        (Builder.enable tcs arch).1.countP isShellCmd = 0) ∧
    (∀ tc, List.lookup arch tcs = some tc →
        (Builder.enable tcs arch).2 = none ∧
        (Builder.enable tcs arch).1.take 2 =
          [BuildAction.lookupToolchain arch, BuildAction.subshellEnter] ∧
        (Builder.enable tcs arch).1.countP isLookup = 1) := by
  constructor
  · intro h
    refine ⟨by simp [Builder.enable, h], ?_⟩
    simp [Builder.enable, h, List.countP_cons, isShellCmd]
  · intro tc h
    refine ⟨by simp [Builder.enable, h], by simp [Builder.enable, h], ?_⟩
    simp [Builder.enable, h, List.countP_cons, isLookup,
      countP_isLookup_map_shellCmd]

/-- C10 witness: the statement applied to a one-entry toolchains dictionary,
once for a missing arch and once for the present one. -/
theorem builder_enable_lookup_before_subshell_witness :
    (Builder.enable [("armv7", ⟨[["unset", "LD_LIBRARY_PATH"],
        ["source", "setup-env"]]⟩)] "mips" =
      ([BuildAction.lookupToolchain "mips"], some (Err.keyError "mips"))) ∧
    (Builder.enable [("armv7", ⟨[["unset", "LD_LIBRARY_PATH"],
        ["source", "setup-env"]]⟩)] "armv7").1.take 2 =
      [BuildAction.lookupToolchain "armv7", BuildAction.subshellEnter] := by
  have h1 := (builder_enable_lookup_before_subshell
    [("armv7", ⟨[["unset", "LD_LIBRARY_PATH"], ["source", "setup-env"]]⟩)]
    "mips").1 (by decide)
  have h2 := (builder_enable_lookup_before_subshell
    [("armv7", ⟨[["unset", "LD_LIBRARY_PATH"], ["source", "setup-env"]]⟩)]
    "armv7").2 ⟨[["unset", "LD_LIBRARY_PATH"], ["source", "setup-env"]]⟩
    (by decide)
  exact ⟨h1.1, h2.2.1⟩

end Tbot
